import Mathlib

set_option linter.unusedVariables false

/-!
Verification of the response-parsing and memory-accumulation layer of the
Academic Research Collaborator backend (`src/backend/agents/`).

The Python source is shallowly embedded: every pure parsing helper becomes a
Lean function over `String`/`List String`, the per-call memory mutation of the
three task agents becomes a pure state transformer over a `Memory` structure,
and the fallible generation gateway becomes a function over `Except`.
Scores computed as Python floats are modelled as rationals: every score value
the source produces (5.0, 6.0, 7.0, 7.5, 9.0 and means of small integers) is
exactly representable, so float rounding never occurs in the modelled range.
Python string primitives (`split`, `strip`, `upper`, `lower`, `startswith`,
`in`) are re-implemented over `List Char` with their exact semantics so that
all definitions evaluate inside the kernel.
-/

/-- Python `str.startswith` over char lists. -/
def hasPrefixL : List Char → List Char → Bool
  | [], _ => true
  | _ :: _, [] => false
  | p :: ps, c :: cs => p = c && hasPrefixL ps cs

/-- Python `pat in s` membership over char lists: `pat` occurs contiguously. -/
def hasSubstrL (pat : List Char) : List Char → Bool
  | [] => hasPrefixL pat []
  | c :: cs => hasPrefixL pat (c :: cs) || hasSubstrL pat cs

/-- Python `pat in s` on strings. -/
def strContains (s pat : String) : Bool := hasSubstrL pat.data s.data

/-- Python whitespace class used by `str.strip()` / `str.split()` (ASCII part). -/
def pyIsSpace (c : Char) : Bool :=
  c = ' ' || c = '\t' || c = '\n' || c = '\r' || c = '\x0b' || c = '\x0c'

/-- Strip leading and trailing whitespace from a char list (Python `strip`). -/
def trimL (l : List Char) : List Char :=
  ((l.dropWhile pyIsSpace).reverse.dropWhile pyIsSpace).reverse

/-- Python `s.strip()`. -/
def pyStrip (s : String) : String := String.mk (trimL s.data)

/-- Python truthiness of `line.strip()`: the stripped line is non-empty. -/
def stripNonEmpty (line : String) : Bool := pyStrip line ≠ ""

/-- ASCII upper-casing of one character (Python `str.upper` on ASCII input). -/
def upperC (c : Char) : Char :=
  if 'a' ≤ c && c ≤ 'z' then Char.ofNat (c.toNat - 32) else c

/-- ASCII lower-casing of one character (Python `str.lower` on ASCII input). -/
def lowerC (c : Char) : Char :=
  if 'A' ≤ c && c ≤ 'Z' then Char.ofNat (c.toNat + 32) else c

/-- Python `s.upper()`. -/
def pyUpper (s : String) : String := String.mk (s.data.map upperC)

/-- Python `s.lower()`. -/
def pyLower (s : String) : String := String.mk (s.data.map lowerC)

/-- `pat in line.upper()` — the case-insensitive containment idiom of the source. -/
def containsUpper (line pat : String) : Bool := strContains (pyUpper line) pat

/-- `pat in response.lower()` — idiom used by quality-score sniffing. -/
def containsLower (line pat : String) : Bool := strContains (pyLower line) pat

/-- Split a char list at newline characters (Python `s.split('\n')`):
separator-split semantics, empty pieces kept. -/
def splitNl : List Char → List (List Char)
  | [] => [[]]
  | c :: cs =>
    if c = '\n' then [] :: splitNl cs
    else
      match splitNl cs with
      | [] => [[c]]
      | g :: gs => (c :: g) :: gs

/-- Python `response.split('\n')`. -/
def pySplit (s : String) : List String := (splitNl s.data).map String.mk

/-- Python `s.startswith((p, ...))`: true when some listed string is a prefix. -/
def pyStartsWithAny (s : String) (ps : List String) : Bool :=
  ps.any (fun p => hasPrefixL p.data s.data)

/-- Python `'\n'.join(lines)`. -/
def joinNl : List String → String
  | [] => ""
  | [l] => l
  | l :: rest => l ++ "\n" ++ joinNl rest

/-- Accumulator pass of Python whitespace-splitting `s.split()` (no argument):
words are maximal runs of non-whitespace, no empty pieces. -/
def splitWsAux : List Char → List Char → List (List Char)
  | [], acc => if acc = [] then [] else [acc.reverse]
  | c :: cs, acc =>
    if pyIsSpace c then
      if acc = [] then splitWsAux cs [] else acc.reverse :: splitWsAux cs []
    else splitWsAux cs (c :: acc)

/-- Python `len(text.split())` — word count as the source computes it. -/
def pyWordCount (s : String) : Nat := (splitWsAux s.data []).length

/- ----------------------------------------------------------------------
`DraftPolisherAgent._assess_quality_score`
(src/backend/agents/draft_polisher_agent.py lines 268-278)
---------------------------------------------------------------------- -/

/-- Embeds `_assess_quality_score(original_text, polished_response)`:
keyword sniffing over the lower-cased response, first rule that fires wins. -/
def assess_quality_score (original_text polished_response : String) : ℚ :=
  if containsLower polished_response "excellent"
     || containsLower polished_response "high quality" then 9
  else if containsLower polished_response "good"
     || containsLower polished_response "well" then 7.5
  else if containsLower polished_response "improvement" then 6
  else 7

/- ----------------------------------------------------------------------
`HypothesisValidatorAgent._calculate_overall_score`
(src/backend/agents/hypothesis_validator_agent.py lines 96-110)
---------------------------------------------------------------------- -/

/-- Word character of the regex `\b` boundary (`[A-Za-z0-9_]` on ASCII). -/
def isWordChar (c : Char) : Bool := c.isAlphanum || c = '_'

/-- Embeds `re.findall(r'\b([1-9]|10)\b', line)` over the line's chars,
returning matched values in scan order. The first argument records whether
the character just before the current scan position is a word character
(`false` at the start of the line). At each position the engine first tries
a single digit `[1-9]` followed by a boundary, then the two-character
alternative `10` followed by a boundary; after a match, scanning resumes
immediately after the matched text. -/
def reFindScores : Bool → List Char → List Nat
  | _, [] => []
  | prevWord, [c] =>
    if !prevWord && 49 ≤ c.toNat && c.toNat ≤ 57 then [c.toNat - 48] else []
  | prevWord, c :: d :: rest2 =>
    if !prevWord && 49 ≤ c.toNat && c.toNat ≤ 57 then
      if !(isWordChar d) then (c.toNat - 48) :: reFindScores (isWordChar c) (d :: rest2)
      else if c = '1' && d = '0'
              && (match rest2 with | [] => true | e :: _ => !(isWordChar e)) then
        10 :: reFindScores (isWordChar d) rest2
      else reFindScores (isWordChar c) (d :: rest2)
    else reFindScores (isWordChar c) (d :: rest2)

/-- The seven criterion keywords of `_calculate_overall_score`. -/
def criterionKeywords : List String :=
  ["CLARITY", "TESTABILITY", "SPECIFICITY", "RELEVANCE", "ORIGINALITY",
   "FEASIBILITY", "THEORETICAL"]

/-- `any(criterion in line.upper() for criterion in [...])`. -/
def lineHasCriterion (line : String) : Bool :=
  criterionKeywords.any (fun k => containsUpper line k)

/-- The score-collecting loop of `_calculate_overall_score`: for each line
holding a criterion keyword, append the first regex match if any. -/
def calcScoresLoop : List String → List Nat
  | [] => []
  | line :: rest =>
    if lineHasCriterion line then
      match reFindScores false line.data with
      | [] => calcScoresLoop rest
      | n :: _ => n :: calcScoresLoop rest
    else calcScoresLoop rest

/-- Embeds `_calculate_overall_score(analysis)`:
`sum(scores) / len(scores) if scores else 5.0`. -/
def calculate_overall_score (analysis : String) : ℚ :=
  let scores := calcScoresLoop (pySplit analysis)
  if scores.isEmpty then 5 else (scores.sum : ℚ) / scores.length

/-- Per-line summary used to state the claim: the first regex score of a
line, provided the line carries a criterion keyword. -/
def lineScore (line : String) : Option Nat :=
  if lineHasCriterion line then (reFindScores false line.data).head? else none

/-- Embeds `_get_assessment_level(score)`. -/
def get_assessment_level (score : ℚ) : String :=
  if 8 ≤ score then "Strong" else if 6 ≤ score then "Moderate" else "Weak"

/- ----------------------------------------------------------------------
`DraftPolisherAgent._extract_improvements` / `_extract_suggestions`
(src/backend/agents/draft_polisher_agent.py lines 232-266)
---------------------------------------------------------------------- -/

/-- The bullet test shared by both list extractors:
`line.strip().startswith(('-', '*', '•')) or any(num in line[:3] for num in ['1.', '2.', '3.'])`. -/
def bulletCondition (line : String) : Bool :=
  (match trimL line.data with
   | c :: _ => c = '-' || c = '*' || c = '•'
   | [] => false)
  || ["1.", "2.", "3."].any (fun n => hasSubstrL n.data (line.data.take 3))

/-- Section-opening test of `_extract_improvements`. -/
def improvTrigger (line : String) : Bool :=
  containsUpper line "IMPROVEMENTS" || containsUpper line "CORRECTIONS"

/-- Section-closing test of `_extract_improvements`. -/
def improvClose (line : String) : Bool :=
  stripNonEmpty line && pyStartsWithAny (pyStrip line) ["POLISHED", "SUGGESTIONS", "QUALITY"]

/-- The line loop of `_extract_improvements`, carrying `in_improvements_section`. -/
def extractImprovementsLoop : Bool → List String → List String
  | _, [] => []
  | inSec, line :: rest =>
    if improvTrigger line then extractImprovementsLoop true rest
    else if improvClose line then extractImprovementsLoop false rest
    else if inSec && stripNonEmpty line then
      if bulletCondition line then pyStrip line :: extractImprovementsLoop inSec rest
      else extractImprovementsLoop inSec rest
    else extractImprovementsLoop inSec rest

/-- Embeds `_extract_improvements(response)` (cap of 10 applied at return). -/
def extract_improvements (response : String) : List String :=
  (extractImprovementsLoop false (pySplit response)).take 10

/-- Section-opening test of `_extract_suggestions`. -/
def suggTrigger (line : String) : Bool := containsUpper line "SUGGESTIONS"

/-- Section-closing test of `_extract_suggestions`. -/
def suggClose (line : String) : Bool :=
  stripNonEmpty line && pyStartsWithAny (pyStrip line) ["QUALITY"]

/-- The line loop of `_extract_suggestions`, carrying `in_suggestions_section`. -/
def extractSuggestionsLoop : Bool → List String → List String
  | _, [] => []
  | inSec, line :: rest =>
    if suggTrigger line then extractSuggestionsLoop true rest
    else if suggClose line then extractSuggestionsLoop false rest
    else if inSec && stripNonEmpty line then
      if bulletCondition line then pyStrip line :: extractSuggestionsLoop inSec rest
      else extractSuggestionsLoop inSec rest
    else extractSuggestionsLoop inSec rest

/-- Embeds `_extract_suggestions(response)` (cap of 5 applied at return). -/
def extract_suggestions (response : String) : List String :=
  (extractSuggestionsLoop false (pySplit response)).take 5

/-- Candidate lines of the improvements section: the non-blank lines the loop
inspects while `in_improvements_section` holds, before the bullet filter.
Same section tracking as `extractImprovementsLoop`, bullet test factored out. -/
def improvSectionLines : Bool → List String → List String
  | _, [] => []
  | inSec, line :: rest =>
    if improvTrigger line then improvSectionLines true rest
    else if improvClose line then improvSectionLines false rest
    else if inSec && stripNonEmpty line then line :: improvSectionLines inSec rest
    else improvSectionLines inSec rest

/-- Candidate lines of the suggestions section (see `improvSectionLines`). -/
def suggSectionLines : Bool → List String → List String
  | _, [] => []
  | inSec, line :: rest =>
    if suggTrigger line then suggSectionLines true rest
    else if suggClose line then suggSectionLines false rest
    else if inSec && stripNonEmpty line then line :: suggSectionLines inSec rest
    else suggSectionLines inSec rest

/- ----------------------------------------------------------------------
Recommendation parsing
(src/backend/agents/literature_review_agent.py lines 92-96 and
src/backend/agents/hypothesis_validator_agent.py lines 141-144 —
the two comprehensions are identical)
---------------------------------------------------------------------- -/

/-- Embeds the recommendation comprehension of both agents:
keep the non-blank lines containing one of `1.` … `5.`, strip them,
cap at 5 (`recommendations[:5]`). -/
def parse_recommendations (response : String) : List String :=
  (((pySplit response).filter
      (fun line => stripNonEmpty line
        && ["1.", "2.", "3.", "4.", "5."].any (fun n => strContains line n))).map
    pyStrip).take 5

/- ----------------------------------------------------------------------
`HypothesisValidatorAgent.generate_alternative_hypotheses` parsing
(src/backend/agents/hypothesis_validator_agent.py lines 170-185)
---------------------------------------------------------------------- -/

/-- Line test opening a new alternative:
`line.strip() and ('Hypothesis' in line or line.startswith(('1.', '2.', '3.')))`. -/
def altTrigger (line : String) : Bool :=
  stripNonEmpty line
  && (strContains line "Hypothesis" || pyStartsWithAny line ["1.", "2.", "3."])

/-- The accumulation loop of `generate_alternative_hypotheses`, carrying
`current_hypothesis`; flushes the carried text at end of input. -/
def parseAltLoop : List String → String → List String
  | [], cur => if cur ≠ "" then [pyStrip cur] else []
  | line :: rest, cur =>
    if altTrigger line then
      if cur ≠ "" then pyStrip cur :: parseAltLoop rest line
      else parseAltLoop rest line
    else if stripNonEmpty line && cur ≠ "" then parseAltLoop rest (cur ++ " " ++ line)
    else parseAltLoop rest cur

/-- Embeds the response-parsing part of `generate_alternative_hypotheses`
(cap of 3 applied at return: `alternatives[:3]`). -/
def parse_alternatives (response : String) : List String :=
  (parseAltLoop (pySplit response) "").take 3

/- ----------------------------------------------------------------------
`DraftPolisherAgent._extract_polished_text`
(src/backend/agents/draft_polisher_agent.py lines 280-298)
---------------------------------------------------------------------- -/

/-- The five text-block markers recognized by `_extract_polished_text`. -/
def textMarkers : List String :=
  ["POLISHED TEXT", "CORRECTED TEXT", "RESTRUCTURED TEXT", "CLARIFIED TEXT",
   "IMPROVED TEXT"]

/-- `any(marker in line.upper() for marker in [...text markers...])`. -/
def hasTextMarker (line : String) : Bool :=
  textMarkers.any (fun m => containsUpper line m)

/-- Section-closing test of `_extract_polished_text`. -/
def polishedClose (line : String) : Bool :=
  stripNonEmpty line
  && ["IMPROVEMENTS", "CORRECTIONS", "SUGGESTIONS", "QUALITY"].any
      (fun m => containsUpper line m)

/-- The line loop of `_extract_polished_text`, carrying `in_polished_section`;
collected lines are kept unstripped, as in the source. -/
def extractPolishedLoop : Bool → List String → List String
  | _, [] => []
  | inSec, line :: rest =>
    if hasTextMarker line then extractPolishedLoop true rest
    else if polishedClose line then extractPolishedLoop false rest
    else if inSec && stripNonEmpty line then line :: extractPolishedLoop inSec rest
    else extractPolishedLoop inSec rest

/-- Embeds `_extract_polished_text(response, original_text)`:
`'\n'.join(polished_lines).strip()`, falling back to the original text when
the joined text is empty. -/
def extract_polished_text (response original_text : String) : String :=
  let polished_text := pyStrip (joinNl (extractPolishedLoop false (pySplit response)))
  if polished_text ≠ "" then polished_text else original_text

/- ----------------------------------------------------------------------
Session memory document and the memory store
(src/backend/agents/base.py lines 17-49)
---------------------------------------------------------------------- -/

/-- The three progress flags of the memory document. -/
structure Progress where
  literature_review_completed : Bool
  hypothesis_validated : Bool
  draft_polished : Bool
deriving DecidableEq, Repr

/-- An entry of `memory['literature_reviews']`
(src/backend/agents/literature_review_agent.py lines 32-36). -/
structure ReviewEntry where
  timestamp : String
  review : String
  sources_analyzed : Nat
deriving DecidableEq, Repr

/-- The dictionary built by `_validate_hypothesis`
(src/backend/agents/hypothesis_validator_agent.py lines 89-94). -/
structure ValidationResult where
  detailed_analysis : String
  overall_score : ℚ
  assessment : String
  timestamp : String
deriving DecidableEq, Repr

/-- An entry of `memory['hypotheses']`
(src/backend/agents/hypothesis_validator_agent.py lines 27-32). -/
structure HypothesisEntry where
  timestamp : String
  hypothesis : String
  validation : ValidationResult
  research_question : String
deriving DecidableEq, Repr

/-- An entry of `memory['drafts']`
(src/backend/agents/draft_polisher_agent.py lines 25-33). -/
structure DraftEntry where
  timestamp : String
  original_draft : String
  polished_draft : String
  polish_type : String
  improvements_made : List String
  word_count_original : Nat
  word_count_polished : Nat
deriving DecidableEq, Repr

/-- The session memory document persisted by the memory store. -/
structure Memory where
  research_question : String
  citations : List String
  notes : List String
  literature_reviews : List ReviewEntry
  hypotheses : List HypothesisEntry
  drafts : List DraftEntry
  progress : Progress
deriving DecidableEq, Repr

/-- The default document produced by `load_memory` on failure
(src/backend/agents/base.py lines 23-35). -/
def default_memory : Memory :=
  { research_question := ""
    citations := []
    notes := []
    literature_reviews := []
    hypotheses := []
    drafts := []
    progress :=
      { literature_review_completed := false
        hypothesis_validated := false
        draft_polished := false } }

/-- Outcome of reading the backing JSON file: a well-formed document, a
missing file (`FileNotFoundError`), or malformed content (`json.JSONDecodeError`). -/
inductive LoadResult where
  | ok (m : Memory)
  | absent
  | malformed
deriving DecidableEq, Repr

/-- Embeds `BaseAgent.load_memory`: the `try` body returns the parsed
document; both handled exception paths return the default document. -/
def load_memory : LoadResult → Memory
  | .ok m => m
  | .absent => default_memory
  | .malformed => default_memory

/-- Embeds `BaseAgent.generate_response`: the model call either yields text
or raises; a raise is caught and rendered as an error string. -/
def generate_response : Except String String → String
  | .ok text => text
  | .error e => "Error generating response: " ++ e

/- ----------------------------------------------------------------------
Task agent memory transitions
---------------------------------------------------------------------- -/

/-- Input dictionary of `LiteratureReviewAgent.process` (fields read with
`.get(..., '')` / `.get(..., [])`; a missing field is the default value). -/
structure LitInput where
  research_question : String
  citations : List String
  notes : List String
deriving DecidableEq, Repr

/-- Input dictionary of `HypothesisValidatorAgent.process`. -/
structure HypInput where
  hypothesis : String
  research_question : String
deriving DecidableEq, Repr

/-- Input dictionary of `DraftPolisherAgent.process`. -/
structure DraftInput where
  draft_text : String
  polish_type : String
  target_audience : String
deriving DecidableEq, Repr

/-- Memory mutation of `LiteratureReviewAgent.process`
(src/backend/agents/literature_review_agent.py lines 11-41): conditional
overwrite/extends, then the review-entry append and the progress flag.
`ts` is the wall-clock timestamp, `review` the gateway's response text. -/
def litProcess (inp : LitInput) (ts review : String) (m : Memory) : Memory :=
  let m1 := if inp.research_question ≠ "" then
              { m with research_question := inp.research_question } else m
  let m2 := if inp.citations ≠ [] then
              { m1 with citations := m1.citations ++ inp.citations } else m1
  let m3 := if inp.notes ≠ [] then
              { m2 with notes := m2.notes ++ inp.notes } else m2
  { m3 with
    literature_reviews := m3.literature_reviews ++
      [{ timestamp := ts, review := review,
         sources_analyzed := inp.citations.length }]
    progress := { m3.progress with literature_review_completed := true } }

/-- Embeds `_validate_hypothesis`'s result dictionary (the prompt text and
gateway call are summarized by the `response` parameter). -/
def validate_hypothesis (ts response : String) : ValidationResult :=
  { detailed_analysis := response
    overall_score := calculate_overall_score response
    assessment := get_assessment_level (calculate_overall_score response)
    timestamp := ts }

/-- Memory mutation of `HypothesisValidatorAgent.process`
(src/backend/agents/hypothesis_validator_agent.py lines 11-37). -/
def hypProcess (inp : HypInput) (ts response : String) (m : Memory) : Memory :=
  let rq := if inp.research_question ≠ "" then inp.research_question
            else m.research_question
  { m with
    hypotheses := m.hypotheses ++
      [{ timestamp := ts, hypothesis := inp.hypothesis,
         validation := validate_hypothesis ts response,
         research_question := rq }]
    progress := { m.progress with hypothesis_validated := true } }

/-- Memory mutation of `DraftPolisherAgent.process`
(src/backend/agents/draft_polisher_agent.py lines 11-38). -/
def draftProcess (inp : DraftInput) (ts response : String) (m : Memory) : Memory :=
  let polished := extract_polished_text response inp.draft_text
  { m with
    drafts := m.drafts ++
      [{ timestamp := ts, original_draft := inp.draft_text,
         polished_draft := polished, polish_type := inp.polish_type,
         improvements_made := extract_improvements response,
         word_count_original := pyWordCount inp.draft_text,
         word_count_polished := pyWordCount polished }]
    progress := { m.progress with draft_polished := true } }

/-- One task invocation: the agent kind, its input, the timestamp taken at
append time and the gateway response text. -/
inductive Invocation where
  | lit (inp : LitInput) (ts review : String)
  | hyp (inp : HypInput) (ts response : String)
  | draft (inp : DraftInput) (ts response : String)

/-- The memory transition of one invocation's load→mutate→save cycle. -/
def step : Invocation → Memory → Memory
  | .lit i ts rv, m => litProcess i ts rv m
  | .hyp i ts r, m => hypProcess i ts r m
  | .draft i ts r, m => draftProcess i ts r m

/-- Consecutive invocations: each loads what the previous one saved. -/
def run : List Invocation → Memory → Memory
  | [], m => m
  | i :: is, m => run is (step i m)

/-- The three flag names, for stating monotonicity uniformly. -/
inductive ProgressFlag where
  | litDone
  | hypDone
  | draftDone
deriving DecidableEq, Repr

/-- Read one progress flag. -/
def flagGet : ProgressFlag → Progress → Bool
  | .litDone, p => p.literature_review_completed
  | .hypDone, p => p.hypothesis_validated
  | .draftDone, p => p.draft_polished

/-- The flag an invocation is documented to set. -/
def invFlag : Invocation → ProgressFlag
  | .lit .. => .litDone
  | .hyp .. => .hypDone
  | .draft .. => .draftDone

/- ----------------------------------------------------------------------
Concrete inputs used to instantiate theorems with hypotheses
---------------------------------------------------------------------- -/

/-- Two consecutive literature-review calls, both with non-empty citations. -/
def litCallsExample : List (LitInput × String × String) :=
  [({ research_question := "q", citations := ["c1", "c2"], notes := [] },
    "2024-01-01T00:00:00", "review one"),
   ({ research_question := "", citations := ["c3"], notes := ["n1"] },
    "2024-01-02T00:00:00", "review two")]

/-- A memory state whose literature-review flag is already true. -/
def memLitDone : Memory :=
  { default_memory with
    progress :=
      { literature_review_completed := true
        hypothesis_validated := false
        draft_polished := false } }

/-- A hypothesis-validation invocation on fixed inputs. -/
def invHypExample : Invocation :=
  .hyp { hypothesis := "h", research_question := "q" } "2024-01-03T00:00:00"
    "CLARITY: 8"

/-- A literature-review invocation whose three inputs are all empty. -/
def litInputEmpty : LitInput :=
  { research_question := "", citations := [], notes := [] }

/- ----------------------------------------------------------------------
Helper lemmas
---------------------------------------------------------------------- -/

/-- The score loop of `_calculate_overall_score` collects exactly one score
per keyword-bearing line: it is `filterMap` of the per-line summary. -/
theorem calcScoresLoop_eq_filterMap (lines : List String) :
    calcScoresLoop lines = lines.filterMap lineScore := by
  induction lines with
  | nil => rfl
  | cons line rest ih =>
    simp only [calcScoresLoop, lineScore, List.filterMap_cons]
    by_cases h : lineHasCriterion line
    · simp only [h, if_true]
      cases hm : reFindScores false line.data with
      | nil => simpa [hm] using ih
      | cons n ns => simpa [hm] using ih
    · simp [h, ih]

/-- Every value the regex scan returns lies between 1 and 10. -/
theorem reFindScores_mem_bound :
    ∀ (b : Bool) (cs : List Char) (n : Nat), n ∈ reFindScores b cs → 1 ≤ n ∧ n ≤ 10
  | _, [], n, h => by simp [reFindScores] at h
  | b, [c], n, h => by
    simp only [reFindScores] at h
    split at h
    · rename_i hc
      simp only [List.mem_singleton] at h
      subst h
      simp only [Bool.and_assoc, Bool.and_eq_true, decide_eq_true_eq] at hc
      omega
    · simp at h
  | b, c :: d :: rest2, n, h => by
    simp only [reFindScores] at h
    split at h
    · rename_i hc
      simp only [Bool.and_assoc, Bool.and_eq_true, decide_eq_true_eq] at hc
      split at h
      · rcases List.mem_cons.mp h with h1 | h1
        · subst h1; omega
        · exact reFindScores_mem_bound _ _ _ h1
      · split at h
        · rcases List.mem_cons.mp h with h1 | h1
          · subst h1; omega
          · exact reFindScores_mem_bound _ _ _ h1
        · exact reFindScores_mem_bound _ _ _ h
    · exact reFindScores_mem_bound _ _ _ h

/-- The improvements loop is the bullet filter over the section's candidate
lines, stripped. -/
theorem improvLoop_eq_filter (lines : List String) : ∀ (inSec : Bool),
    extractImprovementsLoop inSec lines
      = ((improvSectionLines inSec lines).filter bulletCondition).map pyStrip := by
  induction lines with
  | nil => intro inSec; rfl
  | cons line rest ih =>
    intro inSec
    simp only [extractImprovementsLoop, improvSectionLines]
    by_cases h1 : improvTrigger line
    · simp [h1, ih true]
    · by_cases h2 : improvClose line
      · simp [h1, h2, ih false]
      · by_cases h3 : inSec && stripNonEmpty line
        · by_cases hb : bulletCondition line
          · simp [h1, h2, h3, hb, List.filter_cons, ih inSec]
          · simp [h1, h2, h3, hb, List.filter_cons, ih inSec]
        · simp [h1, h2, h3, ih inSec]

/-- The suggestions loop is the bullet filter over the section's candidate
lines, stripped. -/
theorem suggLoop_eq_filter (lines : List String) : ∀ (inSec : Bool),
    extractSuggestionsLoop inSec lines
      = ((suggSectionLines inSec lines).filter bulletCondition).map pyStrip := by
  induction lines with
  | nil => intro inSec; rfl
  | cons line rest ih =>
    intro inSec
    simp only [extractSuggestionsLoop, suggSectionLines]
    by_cases h1 : suggTrigger line
    · simp [h1, ih true]
    · by_cases h2 : suggClose line
      · simp [h1, h2, ih false]
      · by_cases h3 : inSec && stripNonEmpty line
        · by_cases hb : bulletCondition line
          · simp [h1, h2, h3, hb, List.filter_cons, ih inSec]
          · simp [h1, h2, h3, hb, List.filter_cons, ih inSec]
        · simp [h1, h2, h3, ih inSec]

/-- With no text marker anywhere, the polished-text loop started outside a
section collects nothing. -/
theorem extractPolishedLoop_nil (lines : List String)
    (h : ∀ line ∈ lines, hasTextMarker line = false) :
    extractPolishedLoop false lines = [] := by
  induction lines with
  | nil => rfl
  | cons line rest ih =>
    have hl : hasTextMarker line = false := h line (List.mem_cons_self ..)
    have hr : ∀ l ∈ rest, hasTextMarker l = false :=
      fun l hm => h l (List.mem_cons_of_mem _ hm)
    simp only [extractPolishedLoop, hl]
    by_cases h2 : polishedClose line
    · simp [h2, ih hr]
    · simp [h2, ih hr]

/-- A literature-review call always leaves `citations` equal to the prior
value followed by the supplied list (the skipped `extend` of an empty input
appends nothing). -/
theorem litProcess_citations (inp : LitInput) (ts rv : String) (m : Memory) :
    (litProcess inp ts rv m).citations = m.citations ++ inp.citations := by
  simp only [litProcess]
  by_cases h1 : inp.research_question ≠ "" <;>
    by_cases h2 : inp.citations ≠ [] <;>
      by_cases h3 : inp.notes ≠ [] <;>
        simp_all

/-- The conditional overwrite/extend chain of a literature-review call never
touches the progress flags; only the final completion write does. -/
theorem litProcess_progress (inp : LitInput) (ts rv : String) (m : Memory) :
    (litProcess inp ts rv m).progress
      = { m.progress with literature_review_completed := true } := by
  simp only [litProcess]
  by_cases h1 : inp.research_question ≠ "" <;>
    by_cases h2 : inp.citations ≠ [] <;>
      by_cases h3 : inp.notes ≠ [] <;>
        simp_all

/-- A step sets its own progress flag. -/
theorem step_sets_own_flag (inv : Invocation) (m : Memory) :
    flagGet (invFlag inv) (step inv m).progress = true := by
  cases inv with
  | lit i ts rv => simp [step, invFlag, litProcess_progress, flagGet]
  | hyp i ts r => simp [step, invFlag, hypProcess, flagGet]
  | draft i ts r => simp [step, invFlag, draftProcess, flagGet]

/-- No step ever lowers a progress flag. -/
theorem step_flag_mono (f : ProgressFlag) (inv : Invocation) (m : Memory)
    (h : flagGet f m.progress = true) : flagGet f (step inv m).progress = true := by
  cases inv with
  | lit i ts rv =>
    cases f <;> simp_all [step, litProcess_progress, flagGet]
  | hyp i ts r =>
    cases f <;> simp_all [step, hypProcess, flagGet]
  | draft i ts r =>
    cases f <;> simp_all [step, draftProcess, flagGet]

/-- No sequence of steps ever lowers a progress flag. -/
theorem run_flag_mono (f : ProgressFlag) (invs : List Invocation) : ∀ (m : Memory),
    flagGet f m.progress = true → flagGet f (run invs m).progress = true := by
  induction invs with
  | nil => intro m h; exact h
  | cons i is ih => intro m h; exact ih (step i m) (step_flag_mono f i m h)

/- ----------------------------------------------------------------------
Claim theorems
---------------------------------------------------------------------- -/

/-- C1: hypothesis overall-score extraction collects, from each line holding
a criterion keyword (CLARITY, TESTABILITY, SPECIFICITY, RELEVANCE,
ORIGINALITY, FEASIBILITY, THEORETICAL, case-insensitive), the first
standalone integer between 1 and 10 on that line — one score per matching
line — and returns the arithmetic mean of the collected scores, or the
default 5.0 when no line yields a score; the two-line example
"CLARITY: 8" / "TESTABILITY: 6" yields exactly 7.0. -/
theorem overall_score_extraction (analysis : String) :
    calculate_overall_score analysis =
      (if ((pySplit analysis).filterMap lineScore).isEmpty then 5
       else (((pySplit analysis).filterMap lineScore).sum : ℚ) /
            ((pySplit analysis).filterMap lineScore).length)
    ∧ (∀ line n, lineScore line = some n → 1 ≤ n ∧ n ≤ 10)
    ∧ ((∀ line ∈ pySplit analysis, lineScore line = none) →
        calculate_overall_score analysis = 5)
    ∧ calculate_overall_score "CLARITY: 8\nTESTABILITY: 6" = 7 := by
  refine ⟨?_, ?_, ?_, ?_⟩
  · simp only [calculate_overall_score, calcScoresLoop_eq_filterMap]
  · intro line n h
    simp only [lineScore] at h
    split at h
    · cases hm : reFindScores false line.data with
      | nil => simp [hm] at h
      | cons a t =>
        rw [hm] at h
        simp only [List.head?_cons, Option.some.injEq] at h
        subst h
        exact reFindScores_mem_bound false line.data _
          (by rw [hm]; exact List.mem_cons_self ..)
    · simp at h
  · intro h
    have h0 : (pySplit analysis).filterMap lineScore = [] :=
      List.filterMap_eq_nil_iff.mpr h
    simp only [calculate_overall_score, calcScoresLoop_eq_filterMap, h0,
      List.isEmpty_nil, if_true]
  · have h : calcScoresLoop (pySplit "CLARITY: 8\nTESTABILITY: 6") = [8, 6] := by
      decide
    simp only [calculate_overall_score, h, List.isEmpty_cons, List.sum_cons,
      List.sum_nil, List.length_cons, List.length_nil]
    norm_num

/-- C1 witness: instantiates the score bound at line "CLARITY: 8" (score 8)
and the default case at a keyword-free response. -/
theorem overall_score_extraction_witness :
    (1 ≤ 8 ∧ 8 ≤ 10) ∧ calculate_overall_score "nothing to see" = 5 :=
  ⟨(overall_score_extraction "x").2.1 "CLARITY: 8" 8 (by decide),
   (overall_score_extraction "nothing to see").2.2.1 (by decide)⟩

/-- C2: draft quality scoring returns 9.0 on "excellent"/"high quality"
(case-insensitive), else 7.5 on "good"/"well", else 6.0 on "improvement",
else the default 7.0; the rules apply in that priority order, so a response
containing both "good" and "excellent" yields 9.0. -/
theorem quality_score_priority (original_text response : String) :
    ((containsLower response "excellent" || containsLower response "high quality")
        = true → assess_quality_score original_text response = 9)
    ∧ ((containsLower response "excellent" || containsLower response "high quality")
        = false →
       (containsLower response "good" || containsLower response "well") = true →
       assess_quality_score original_text response = 7.5)
    ∧ ((containsLower response "excellent" || containsLower response "high quality")
        = false →
       (containsLower response "good" || containsLower response "well") = false →
       containsLower response "improvement" = true →
       assess_quality_score original_text response = 6)
    ∧ ((containsLower response "excellent" || containsLower response "high quality")
        = false →
       (containsLower response "good" || containsLower response "well") = false →
       containsLower response "improvement" = false →
       assess_quality_score original_text response = 7)
    ∧ assess_quality_score "draft" "a good, indeed excellent, draft" = 9 := by
  refine ⟨?_, ?_, ?_, ?_, ?_⟩
  · intro h1; simp [assess_quality_score, h1]
  · intro h1 h2; simp [assess_quality_score, h1, h2]
  · intro h1 h2 h3; simp [assess_quality_score, h1, h2, h3]
  · intro h1 h2 h3; simp [assess_quality_score, h1, h2, h3]
  · have h1 : (containsLower "a good, indeed excellent, draft" "excellent"
        || containsLower "a good, indeed excellent, draft" "high quality") = true := by
      decide
    simp [assess_quality_score, h1]

/-- C2 witness: one instantiation per priority rule, each premise discharged
on a concrete response. -/
theorem quality_score_priority_witness :
    assess_quality_score "" "truly excellent" = 9
    ∧ assess_quality_score "" "quite good" = 7.5
    ∧ assess_quality_score "" "needs improvement" = 6
    ∧ assess_quality_score "" "zzz" = 7 :=
  ⟨(quality_score_priority "" "truly excellent").1 (by decide),
   (quality_score_priority "" "quite good").2.1 (by decide) (by decide),
   (quality_score_priority "" "needs improvement").2.2.1
     (by decide) (by decide) (by decide),
   (quality_score_priority "" "zzz").2.2.2.1 (by decide) (by decide) (by decide)⟩

/-- C3 counterexample: inside a recognized improvements section, the line
"7. Fix the title" is a non-blank candidate line that begins with a digit
immediately followed by '.', yet the extractor collects nothing — the code
only tests for the substrings "1.", "2.", "3." in the first three characters,
so digits 4 through 9 are not recognized, contradicting the claim's
"for every digit 1 through 9". -/
theorem digit_bullet_counterexample :
    improvSectionLines false (pySplit "IMPROVEMENTS MADE:\n7. Fix the title")
        = ["7. Fix the title"]
    ∧ extract_improvements "IMPROVEMENTS MADE:\n7. Fix the title" = []
    ∧ bulletCondition "7. Fix the title" = false
    ∧ bulletCondition "1. Fix the title" = true :=
  ⟨by decide, by decide, by decide, by decide⟩

/-- C3 amended: within a recognized section, both extractors collect exactly
the non-blank candidate lines satisfying the bullet test — first stripped
character one of '-', '*', '•', or one of the substrings "1.", "2.", "3."
occurring within the first three characters of the line (digits 4-9 are not
recognized) — each collected line stripped, every other line discarded. -/
theorem bullet_collection_amended (inSec : Bool) (lines : List String) :
    extractImprovementsLoop inSec lines
      = ((improvSectionLines inSec lines).filter bulletCondition).map pyStrip
    ∧ extractSuggestionsLoop inSec lines
      = ((suggSectionLines inSec lines).filter bulletCondition).map pyStrip :=
  ⟨improvLoop_eq_filter lines inSec, suggLoop_eq_filter lines inSec⟩

/-- C4: when no line of the response contains any of the five text-block
markers (case-insensitive), polished-text extraction returns exactly the
original input text; the fallback is a total function, never an error. -/
theorem polished_text_fallback (response original_text : String)
    (h : ∀ line ∈ pySplit response, hasTextMarker line = false) :
    extract_polished_text response original_text = original_text := by
  have h0 : extractPolishedLoop false (pySplit response) = [] :=
    extractPolishedLoop_nil _ h
  have h1 : pyStrip (joinNl ([] : List String)) = "" := by decide
  simp [extract_polished_text, h0, h1]

/-- C4 witness: a marker-free two-line response falls back to the original. -/
theorem polished_text_fallback_witness :
    extract_polished_text "no markers here\njust prose" "the original draft"
      = "the original draft" :=
  polished_text_fallback "no markers here\njust prose" "the original draft"
    (by decide)

/-- C5: the per-field caps — at most 10 improvements, at most 5 suggestions,
at most 5 recommendations, at most 3 alternative hypotheses — applied by
silent truncation; a response with 12 bullet improvement lines in its
improvements section yields exactly the first 10, in order. -/
theorem extraction_caps (response : String) :
    (extract_improvements response).length ≤ 10
    ∧ (extract_suggestions response).length ≤ 5
    ∧ (parse_recommendations response).length ≤ 5
    ∧ (parse_alternatives response).length ≤ 3
    ∧ extract_improvements
        ("IMPROVEMENTS MADE:\n- i01\n- i02\n- i03\n- i04\n- i05\n- i06\n- i07\n- i08\n- i09\n- i10\n- i11\n- i12")
      = ["- i01", "- i02", "- i03", "- i04", "- i05",
         "- i06", "- i07", "- i08", "- i09", "- i10"] := by
  refine ⟨?_, ?_, ?_, ?_, by decide⟩
  · simp only [extract_improvements, List.length_take]; omega
  · simp only [extract_suggestions, List.length_take]; omega
  · simp only [parse_recommendations, List.length_take]; omega
  · simp only [parse_alternatives, List.length_take]; omega

/-- C6: across any number of consecutive literature-review invocations, each
with a non-empty citations list, the stored citations sequence equals the
prior sequence followed by the concatenation of all inputs in invocation
order, so its length grows by exactly the sum of the input lengths. -/
theorem citations_append_growth (calls : List (LitInput × String × String))
    (m : Memory) (h : ∀ c ∈ calls, c.1.citations ≠ []) :
    (run (calls.map fun c => Invocation.lit c.1 c.2.1 c.2.2) m).citations
        = m.citations ++ (calls.map fun c => c.1.citations).flatten
    ∧ (run (calls.map fun c => Invocation.lit c.1 c.2.1 c.2.2) m).citations.length
        = m.citations.length + (calls.map fun c => c.1.citations.length).sum := by
  have key : ∀ (cs : List (LitInput × String × String)) (m0 : Memory),
      (run (cs.map fun c => Invocation.lit c.1 c.2.1 c.2.2) m0).citations
        = m0.citations ++ (cs.map fun c => c.1.citations).flatten := by
    intro cs
    induction cs with
    | nil => intro m0; simp [run]
    | cons c rest ih =>
      intro m0
      simp only [List.map_cons, run, step, List.flatten_cons]
      rw [ih, litProcess_citations, List.append_assoc]
  refine ⟨key calls m, ?_⟩
  rw [key calls m]
  simp [List.length_append, List.length_flatten, List.map_map, Function.comp_def]

/-- C6 witness: two concrete consecutive calls with non-empty citation lists. -/
theorem citations_append_growth_witness :
    ((run (litCallsExample.map fun c => Invocation.lit c.1 c.2.1 c.2.2)
        default_memory).citations
      = default_memory.citations
        ++ (litCallsExample.map fun c => c.1.citations).flatten)
    ∧ ((run (litCallsExample.map fun c => Invocation.lit c.1 c.2.1 c.2.2)
        default_memory).citations.length
      = default_memory.citations.length
        + (litCallsExample.map fun c => c.1.citations.length).sum) :=
  citations_append_growth litCallsExample default_memory (by decide)

/-- C7: after any task invocation the corresponding progress flag is true in
the saved memory, a single subsequent invocation of any kind preserves every
true flag, and so does any sequence of subsequent invocations. -/
theorem progress_flags_monotonic (inv : Invocation) (m : Memory) :
    flagGet (invFlag inv) (step inv m).progress = true
    ∧ (∀ f, flagGet f m.progress = true → flagGet f (step inv m).progress = true)
    ∧ (∀ f (invs : List Invocation), flagGet f m.progress = true →
        flagGet f (run invs m).progress = true) :=
  ⟨step_sets_own_flag inv m, fun f hf => step_flag_mono f inv m hf,
   fun f invs hf => run_flag_mono f invs m hf⟩

/-- C7 witness: a memory with the literature flag already true keeps it true
through an unrelated hypothesis-validation invocation, and through a
one-invocation sequence. -/
theorem progress_flags_monotonic_witness :
    flagGet ProgressFlag.litDone (step invHypExample memLitDone).progress = true
    ∧ flagGet ProgressFlag.litDone (run [invHypExample] memLitDone).progress = true :=
  ⟨(progress_flags_monotonic invHypExample memLitDone).2.1 ProgressFlag.litDone
      (by decide),
   (progress_flags_monotonic invHypExample memLitDone).2.2 ProgressFlag.litDone
      [invHypExample] (by decide)⟩

/-- C8: when the backing file is absent or malformed, load returns — never
raises — the default-empty document: empty research question, empty
citations, notes, literature reviews, hypotheses and drafts, and all three
progress flags false. -/
theorem load_fails_soft (r : LoadResult) (h : r = .absent ∨ r = .malformed) :
    load_memory r = default_memory
    ∧ (load_memory r).research_question = ""
    ∧ (load_memory r).citations = []
    ∧ (load_memory r).notes = []
    ∧ (load_memory r).literature_reviews = []
    ∧ (load_memory r).hypotheses = []
    ∧ (load_memory r).drafts = []
    ∧ (load_memory r).progress.literature_review_completed = false
    ∧ (load_memory r).progress.hypothesis_validated = false
    ∧ (load_memory r).progress.draft_polished = false := by
  rcases h with h | h <;> subst h <;>
    exact ⟨rfl, rfl, rfl, rfl, rfl, rfl, rfl, rfl, rfl, rfl⟩

/-- C8 witness: loading with a missing backing file. -/
theorem load_fails_soft_witness :
    load_memory LoadResult.absent = default_memory
    ∧ (load_memory LoadResult.absent).research_question = ""
    ∧ (load_memory LoadResult.absent).citations = []
    ∧ (load_memory LoadResult.absent).notes = []
    ∧ (load_memory LoadResult.absent).literature_reviews = []
    ∧ (load_memory LoadResult.absent).hypotheses = []
    ∧ (load_memory LoadResult.absent).drafts = []
    ∧ (load_memory LoadResult.absent).progress.literature_review_completed = false
    ∧ (load_memory LoadResult.absent).progress.hypothesis_validated = false
    ∧ (load_memory LoadResult.absent).progress.draft_polished = false :=
  load_fails_soft LoadResult.absent (Or.inl rfl)

/-- C9: a failed model call is rendered as the string
"Error generating response: " followed by the exception text, and the task
agents proceed with that string as the response: the invocation still
appends its memory entry (storing the error text as the analysis), so a
generation failure is never fatal to the caller. -/
theorem generation_failure_not_fatal (e ts : String) (hi : HypInput)
    (di : DraftInput) (m : Memory) :
    generate_response (Except.error e) = "Error generating response: " ++ e
    ∧ (step (.hyp hi ts (generate_response (Except.error e))) m).hypotheses.length
        = m.hypotheses.length + 1
    ∧ ((step (.hyp hi ts (generate_response (Except.error e))) m).hypotheses.getLast?).map
        (fun en => en.validation.detailed_analysis)
        = some ("Error generating response: " ++ e)
    ∧ (step (.draft di ts (generate_response (Except.error e))) m).drafts.length
        = m.drafts.length + 1 := by
  refine ⟨rfl, ?_, ?_, ?_⟩
  · simp [step, hypProcess]
  · simp [step, hypProcess, List.getLast?_concat, validate_hypothesis,
      generate_response]
  · simp [step, draftProcess]

/-- C10: a literature-review invocation leaves the stored research question
unchanged when the supplied one is empty (and overwrites it when non-empty),
leaves citations unchanged when the supplied list is empty, leaves notes
unchanged when the supplied list is empty, while the review-entry append and
the progress-flag write proceed unconditionally. -/
theorem lit_frame_conditions (inp : LitInput) (ts rv : String) (m : Memory) :
    (inp.research_question = "" →
      (litProcess inp ts rv m).research_question = m.research_question)
    ∧ (inp.citations = [] → (litProcess inp ts rv m).citations = m.citations)
    ∧ (inp.notes = [] → (litProcess inp ts rv m).notes = m.notes)
    ∧ (inp.research_question ≠ "" →
      (litProcess inp ts rv m).research_question = inp.research_question)
    ∧ (litProcess inp ts rv m).literature_reviews
        = m.literature_reviews
          ++ [{ timestamp := ts, review := rv,
                sources_analyzed := inp.citations.length }]
    ∧ (litProcess inp ts rv m).progress.literature_review_completed = true := by
  refine ⟨fun hx => ?_, fun hx => ?_, fun hx => ?_, fun hx => ?_, ?_, ?_⟩ <;>
    (simp only [litProcess]
     try (by_cases h1 : inp.research_question ≠ "" <;>
            by_cases h2 : inp.citations ≠ [] <;>
              by_cases h3 : inp.notes ≠ [] <;> simp_all))

/-- C10 witness: an all-empty input changes none of the three fields, and a
non-empty research question is written through. -/
theorem lit_frame_conditions_witness :
    (litProcess litInputEmpty "t" "r" default_memory).research_question
        = default_memory.research_question
    ∧ (litProcess litInputEmpty "t" "r" default_memory).citations
        = default_memory.citations
    ∧ (litProcess litInputEmpty "t" "r" default_memory).notes
        = default_memory.notes
    ∧ (litProcess { research_question := "new q", citations := [], notes := [] }
        "t" "r" default_memory).research_question = "new q" :=
  ⟨(lit_frame_conditions litInputEmpty "t" "r" default_memory).1 rfl,
   (lit_frame_conditions litInputEmpty "t" "r" default_memory).2.1 rfl,
   (lit_frame_conditions litInputEmpty "t" "r" default_memory).2.2.1 rfl,
   (lit_frame_conditions
      { research_question := "new q", citations := [], notes := [] }
      "t" "r" default_memory).2.2.2.1 (by decide)⟩
